import Mathlib

/-!
Shallow embedding of the `eta_heating_technology` Home Assistant integration
(`custom_components/eta_heating_technology/`): the XML wire model and naming
pass (`api.py`), the sensor classifier (`utils.py`, tables in `const.py`),
the capability check (`api.py`), the refresh coordinator (`coordinator.py`)
and the write-acknowledgement path, together with theorems checking the
specification's claims against these definitions.

Python strings become `String`, mutation becomes functional update, raised
exceptions become `Except` error values, and `None`-able results become
`Option`.
-/

namespace EtaHeating

/-- Equality of `Except` results is decidable when it is on both sides. -/
instance {ε α : Type} [DecidableEq ε] [DecidableEq α] : DecidableEq (Except ε α) := fun a b =>
  match a, b with
  | .ok x, .ok y =>
    if h : x = y then .isTrue (by rw [h]) else .isFalse (by intro hc; cases hc; exact h rfl)
  | .error x, .error y =>
    if h : x = y then .isTrue (by rw [h]) else .isFalse (by intro hc; cases hc; exact h rfl)
  | .ok _, .error _ => .isFalse (by intro hc; cases hc)
  | .error _, .ok _ => .isFalse (by intro hc; cases hc)

/-- Embeds `api.py` `sanitize_input`: `input_string.replace(".", "").replace("-", " ")`.
Both patterns are single characters, so Python's left-to-right non-overlapping
replacement is exactly: drop every `'.'`, then map every `'-'` to a space. -/
def sanitize_input (input_string : String) : String :=
  String.mk (((input_string.toList.filter (fun c => c ≠ '.')).map
    (fun c => if c = '-' then ' ' else c)))

/-- Embeds the pydantic model `Object` of `api.py`: xml element
`<object uri=... name=...>` with mutable `full_name` / `namespace` fields
(the `namespace` field is called `ns` here because `namespace` is a Lean
keyword) and nested child objects. -/
inductive Object where
  | mk (uri : String) (name : String) (full_name : String)
       (ns : Option String) (objects : List Object)

/-- The `uri` attribute of an `Object`. -/
def Object.uri : Object → String
  | .mk u _ _ _ _ => u

/-- The `name` attribute of an `Object`. -/
def Object.name : Object → String
  | .mk _ n _ _ _ => n

/-- The `full_name` field of an `Object`. -/
def Object.full_name : Object → String
  | .mk _ _ f _ _ => f

/-- The `namespace` field of an `Object`. -/
def Object.ns : Object → Option String
  | .mk _ _ _ n _ => n

/-- The child `objects` of an `Object`. -/
def Object.objects : Object → List Object
  | .mk _ _ _ _ os => os

/-- Embeds the property `Object.sanitized_name` of `api.py`. -/
def Object.sanitized_name (o : Object) : String :=
  sanitize_input o.name

mutual

/-- Embeds `Object.update_namespace` of `api.py`, functionally: sets
`namespace` to the argument, `full_name` to `f"{namespace}.{self.sanitized_name}"`,
and recurses into the children with the new `full_name`. -/
def Object.update_namespace : Object → String → Object
  | .mk uri name _ _ children, nsp =>
    let full := nsp ++ "." ++ sanitize_input name
    .mk uri name full (some nsp) (updateNamespaceList children full)

/-- The recursion of `Object.update_namespace` over a child list
(the `for obj in self.objects` loop of `api.py`). -/
def updateNamespaceList : List Object → String → List Object
  | [], _ => []
  | o :: os, nsp => o.update_namespace nsp :: updateNamespaceList os nsp

end

/-- Embeds the pydantic model `Fub` of `api.py`: xml element
`<fub uri=... name=...>` with child objects. -/
structure Fub where
  uri : String
  name : String
  objects : List Object

/-- Embeds the property `Fub.sanitized_name` of `api.py`. -/
def Fub.sanitized_name (f : Fub) : String :=
  sanitize_input f.name

/-- Embeds `Fub.model_post_init` of `api.py`, functionally.  For each direct
child: set `namespace = self.sanitized_name`,
`full_name = f"{self.name}.{obj.sanitized_name}"` (note: the RAW fub name),
and, only when the child has children of its own, call
`obj.update_namespace(obj.namespace)` — which overwrites the child's
`full_name` with `f"{self.sanitized_name}.{obj.sanitized_name}"` and
propagates downwards. -/
def Fub.model_post_init (f : Fub) : Fub :=
  { f with objects := f.objects.map (fun o =>
      match o with
      | .mk uri name _ _ children =>
        let o1 : Object :=
          .mk uri name (f.name ++ "." ++ sanitize_input name)
            (some f.sanitized_name) children
        if children.isEmpty then o1
        else o1.update_namespace f.sanitized_name) }

/-- Embeds the pydantic model `Menu` of `api.py`. -/
structure Menu where
  uri : String
  fubs : List Fub

/-! ## Classifier: `const.py` tables and `utils.py` `determine_sensor_type` -/

/-- Embeds `homeassistant.components.sensor.SensorDeviceClass`, restricted to
the classes used by `const.py`. -/
inductive SensorDeviceClass where
  | temperature | power | current | frequency | pressure | voltage
  | irradiance | energy | weight | duration | humidity | volume_flow_rate
deriving DecidableEq

/-- Embeds `ETA_SENSOR_UNITS` of `const.py` (dict, as an ordered key-value list). -/
def ETA_SENSOR_UNITS : List (String × SensorDeviceClass) :=
  [("°C", .temperature), ("W", .power), ("A", .current), ("Hz", .frequency),
   ("Pa", .pressure), ("V", .voltage), ("W/m²", .irradiance), ("bar", .pressure),
   ("kW", .power), ("kWh", .energy), ("kg", .weight), ("mV", .voltage),
   ("s", .duration), ("%rH", .humidity), ("m³/h", .volume_flow_rate)]

/-- Embeds `ETA_BINARY_SENSOR_VALUES_DE` of `const.py`. -/
def ETA_BINARY_SENSOR_VALUES_DE : List (String × Bool) :=
  [("1802", false), ("1803", true)]

/-- Embeds `ETA_STRING_SENSOR_VALUES_DE` of `const.py`. -/
def ETA_STRING_SENSOR_VALUES_DE : List (String × String) :=
  [("2004", "Heizversuch"), ("2005", "Zünden"), ("2006", "Heizen"),
   ("2007", "Glutabbrand"), ("2008", "Glutabbrand wegen Entaschung"),
   ("2009", "Glutabbrand da ausgeschaltet"), ("2012", "Bereit"),
   ("2014", "Entaschen"), ("2016", "Störung"),
   ("2017", "Glutabbrand wegen Störung"), ("2020", "Lambdasonde kalibrieren"),
   ("2021", "Heizen"), ("2023", "Stoker leeren"), ("2024", "Füllen"),
   ("2031", "Störung")]

/-- Embeds the enum `EtaSensorType` of `const.py`. -/
inductive EtaSensorType where
  | sensor | binary_sensor | string_sensor
deriving DecidableEq

/-- Embeds the pydantic model `Value` of `api.py`: the xml element
`<value advTextOffset=... unit=... uri=... strValue=... scaleFactor=... decPlaces=...>`.
All attributes are carried as strings, exactly as in the source; the `unit`
attribute's `Literal[...]` validation is modelled in `decodeValue` below. -/
structure Value where
  value : String
  adv_text_offset : String
  unit : String
  uri : String
  str_value : String
  scale_factor : String
  dec_places : String
deriving DecidableEq

/-- Python `x in d` on a dict means key membership; keys of a table. -/
def keys {α β : Type} (t : List (α × β)) : List α :=
  t.map Prod.fst

/-- Embeds `determine_sensor_type` of `utils.py`:
unit in `ETA_SENSOR_UNITS` → SENSOR; else value in
`ETA_BINARY_SENSOR_VALUES_DE` → BINARY_SENSOR; else value in
`ETA_STRING_SENSOR_VALUES_DE` → STRING_SENSOR; else the fallback: empty unit
with truthy (non-empty) `strValue` → STRING_SENSOR; else `None`. -/
def determine_sensor_type (v : Value) : Option EtaSensorType :=
  if v.unit ∈ keys ETA_SENSOR_UNITS then some .sensor
  else if v.value ∈ keys ETA_BINARY_SENSOR_VALUES_DE then some .binary_sensor
  else if v.value ∈ keys ETA_STRING_SENSOR_VALUES_DE then some .string_sensor
  else if v.unit = "" ∧ v.str_value ≠ "" then some .string_sensor
  else none

/-! ## Value scaling: the `Value.scaled_value` property of `api.py` -/

/-- The number denoted by one of the integer-text strings the device sends
for `value` and `scaleFactor` (spec §3: both are string-encoded integers):
a non-empty all-digit string denotes its decimal value; anything else is a
parse failure (Python `float(...)` raises `ValueError`). -/
def pyNat (s : String) : Option ℕ :=
  if s.toList ≠ [] ∧ s.toList.all Char.isDigit then
    some (s.toList.foldl (fun acc c => 10 * acc + (c.toNat - 48)) 0)
  else none

/-- Models Python `float(...)` on the device's integer-text strings: the
denoted number, carried exactly as a rational. -/
def pyFloat (s : String) : Option ℚ :=
  (pyNat s).map (fun n => (n : ℚ))

/-- Embeds the property `Value.scaled_value` of `api.py`: when `unit` is not
the empty string, `str(float(self.value) / float(self.scale_factor))` — the
numeric result of the division, carried as an exact rational (`none` models a
raised `ValueError`/`ZeroDivisionError`).  When `unit` is empty the source
returns `self.unit` (the empty string, no scaled number): modelled as `none`. -/
def Value.scaled_value (v : Value) : Option ℚ :=
  if v.unit ≠ "" then
    match pyFloat v.value, pyFloat v.scale_factor with
    | some a, some b => if b = 0 then none else some (a / b)
    | _, _ => none
  else none

/-! ## Decode-time unit validation: the `Literal[...]` type of `Value.unit` -/

/-- The closed set of unit strings admitted by the `Literal[...]` annotation
of `Value.unit` in `api.py`: 15 physical units plus the empty string. -/
def allowedUnits : List String :=
  ["°C", "W", "A", "Hz", "Pa", "V", "W/m²", "bar", "kW", "kWh", "kg",
   "mV", "s", "%rH", "m³/h", ""]

/-- Embeds pydantic's decode-time validation of a `<value>` element's
attributes against the `Value` model of `api.py`: the `unit` attribute must
be one of the `Literal` alternatives, otherwise validation (and hence the
whole decode) fails.  The remaining attributes are plain `str` fields with
no further constraint. -/
def decodeValue (value adv_text_offset unit uri str_value scale_factor
    dec_places : String) : Option Value :=
  if unit ∈ allowedUnits then
    some ⟨value, adv_text_offset, unit, uri, str_value, scale_factor, dec_places⟩
  else none

/-! ## Transport and the capability check: `api.py` `EtaApiClient` -/

/-- Embeds the `<api version=... uri=...>` model `Api` of `api.py`. -/
structure Api where
  version : String
  uri : String
deriving DecidableEq

/-- Embeds the `<error uri=...>message</error>` model `Error` of `api.py`. -/
structure Error where
  uri : String
  error_message : String
deriving DecidableEq

/-- Embeds the response envelope model `Eta` of `api.py`: the root
`<eta version=...>` element with at most one of the optional child elements
populated. -/
structure Eta where
  version : String
  api : Option Api := none
  value : Option Value := none
  menu : Option Menu := none
  error : Option Error := none

/-- Embeds the exception taxonomy of `api.py`:
`EtaApiClientAuthenticationError`, `EtaApiClientCommunicationError` and the
generic `EtaApiClientError`. -/
inductive ApiClientError where
  | authentication | communication | generic
deriving DecidableEq

/-- An HTTP response as seen after transport: its status code and the
envelope its body decodes to. -/
structure HttpResponse where
  status : ℕ
  eta : Eta

/-- Embeds `_api_wrapper` composed with `_verify_response_or_raise` of
`api.py` for a delivered response: status 401/403 raises
`EtaApiClientAuthenticationError`; any other status ≥ 400 makes
`response.raise_for_status()` raise an `aiohttp.ClientError`, which
`_api_wrapper` wraps into `EtaApiClientCommunicationError`; otherwise the
response is returned.  (The timeout / DNS-failure paths also map to
`communication` but are outside this model, which starts from a delivered
response.) -/
def api_wrapper (resp : HttpResponse) : Except ApiClientError HttpResponse :=
  if resp.status = 401 ∨ resp.status = 403 then .error .authentication
  else if 400 ≤ resp.status then .error .communication
  else .ok resp

/-- Embeds `EtaApiClient.does_endpoint_exist` of `api.py` end to end over a
delivered response: `_api_wrapper` first (which may raise), then
`if resp.status != HTTP_OK: return False`, then parse; a missing `<api>`
element raises the generic `EtaApiClientError`; otherwise compare the
version attribute with `"1.2"`. -/
def does_endpoint_exist (resp : HttpResponse) : Except ApiClientError Bool :=
  match api_wrapper resp with
  | .error e => .error e
  | .ok r =>
    if r.status ≠ 200 then .ok false
    else
      match r.eta.api with
      | none => .error .generic
      | some a => .ok (a.version == "1.2")

/-! ## Write path: `Success` and `async_update_state`

`switch.py` (`EtaSwitch.async_turn_on` / `async_turn_off`) and
`tests/test_api.py` import `Success` from `api.py` and call
`EtaApiClient.async_update_state`, but neither is defined in
`src/.../api.py`; the definitions below model the missing parts from the
spec. -/

/-- Modelled from the spec: the `Success` write-acknowledgement model
(`WriteAcknowledgement` variant `Success{uri}`, spec §3; the decoded
`<success uri=.../>` element, spec §6), absent from `src/.../api.py` though
imported from it by `switch.py` and `tests/test_api.py`. -/
structure Success where
  uri : String
deriving DecidableEq

/-- Modelled from the spec: the decoded envelope of a write (POST) response,
which "holds at most one of {…, error, success-ack}" (spec §4.1): a response
to `POST /user/var/{uri}` carries either `<success uri=.../>` or
`<error uri=...>message</error>` (spec §6). -/
structure WriteResponse where
  success : Option Success := none
  error : Option Error := none

/-- Modelled from the spec: `EtaApiClient.async_update_state`'s
interpretation of the decoded write response (absent from `src/.../api.py`),
per spec §4.6: "presence of a success element → `Success`; presence of an
error element with message → `Failure{message}`"; a response with neither is
outside the documented schema, hence the generic `ApiError` (spec §7). -/
def async_update_state (resp : WriteResponse) : Except ApiClientError (Success ⊕ Error) :=
  match resp.success with
  | some s => .ok (.inl s)
  | none =>
    match resp.error with
    | some e => .ok (.inr e)
    | none => .error .generic

/-! ## Refresh coordinator: `coordinator.py` `_async_update_data` -/

/-- The kind of `EtaApiClientError` a single point's fetch can fail with
(the exception instances `asyncio.gather(..., return_exceptions=True)`
returns as values). -/
inductive FetchError where
  | auth | comm | api
deriving DecidableEq

/-- Embeds the cycle-level failure outcomes of
`EtaDataUpdateCoordinator._async_update_data`: `homeassistant`'s
`ConfigEntryAuthFailed` (re-authentication required) and `UpdateFailed`. -/
inductive CoordError where
  | authFailed | updateFailed
deriving DecidableEq

/-- Python `dict` assignment `data[k] = v` on an insertion-ordered dict:
overwrite in place when the key exists, else append. -/
def dictInsert (d : List (String × Value)) (k : String) (v : Value) :
    List (String × Value) :=
  if k ∈ d.map Prod.fst then
    d.map (fun p => if p.1 = k then (k, v) else p)
  else d ++ [(k, v)]

/-- Embeds the result loop of `_async_update_data` in `coordinator.py`:
walk `zip(objects, results)` in order; an
`EtaApiClientAuthenticationError` result raises `ConfigEntryAuthFailed`
for the whole cycle; any other exception result is logged and skipped;
a successful `Value` is stored under the object's `full_name`. -/
def processResults : List (String × Except FetchError Value) →
    List (String × Value) → Except CoordError (List (String × Value))
  | [], data => .ok data
  | (_, .error .auth) :: _, _ => .error .authFailed
  | (_, .error _) :: rest, data => processResults rest data
  | (n, .ok v) :: rest, data => processResults rest (dictInsert data n v)

/-- Embeds `EtaDataUpdateCoordinator._async_update_data` of `coordinator.py`
over the per-point fetch results (one result per chosen object, in order, as
delivered by `asyncio.gather(..., return_exceptions=True)`): the snapshot
dict built by the result loop, or the cycle-level failure. -/
def updateData (results : List (String × Except FetchError Value)) :
    Except CoordError (List (String × Value)) :=
  processResults results []

/-- The entries of a successful snapshot as the claim states them: one entry
per successfully fetched point, in order. -/
def successEntries (results : List (String × Except FetchError Value)) :
    List (String × Value) :=
  results.filterMap (fun p =>
    match p.2 with
    | .ok v => some (p.1, v)
    | .error _ => none)

/-! ## Fan-out concurrency of the refresh cycle

Spec §5 fixes the concurrency model: single-threaded cooperative scheduling,
suspension at I/O boundaries only.  `_async_update_data` in `coordinator.py`
fans out with a bare `asyncio.gather(*(client.async_get_data(obj.uri) for obj
in objects), return_exceptions=True)` — there is no semaphore or other
limiter around the coordinator's fetches (the `asyncio.Semaphore(3)` in
`config_flow.py` belongs to the one-shot `_classify_entities` setup helper,
not to the coordinator).  Under cooperative scheduling every gathered task
runs up to its first I/O suspension (issuing its HTTP request) before any
completion callback is processed, so the cycle's event trace issues all `n`
requests and only then observes completions. -/

/-- One scheduling event of a refresh cycle: point `i`'s request is issued
(goes in flight) or completes (leaves flight). -/
inductive FetchEvent where
  | issue (i : ℕ)
  | complete (i : ℕ)
deriving DecidableEq

/-- Running in-flight maximum over an event trace: `cur` requests currently
in flight, `mx` the maximum seen so far. -/
def inFlightMax : List FetchEvent → ℕ → ℕ → ℕ
  | [], _, mx => mx
  | .issue _ :: t, cur, mx => inFlightMax t (cur + 1) (max mx (cur + 1))
  | .complete _ :: t, cur, mx => inFlightMax t (cur - 1) mx

/-- The largest number of fetch requests simultaneously in flight during an
event trace. -/
def maxInFlight (t : List FetchEvent) : ℕ :=
  inFlightMax t 0 0

/-- The cooperative event trace of the coordinator's unbounded
`asyncio.gather` fan-out over `n` chosen points: all `n` requests are issued
before any completion is processed. -/
def coordinatorFanout (n : ℕ) : List FetchEvent :=
  ((List.range n).map .issue) ++ ((List.range n).map .complete)

/-! ## Concrete fixtures (taken from `tests/test_api.py` where available) -/

/-- The `TEST_2` value of `tests/test_api.py`: a temperature reading. -/
def vTemp : Value := ⟨"403", "0", "°C", "/user/var/120/10102/0/11060/0", "40", "10", "0"⟩

/-- The `TEST_3` value of `tests/test_api.py`: binary code 1802 ("Aus"). -/
def vBin : Value := ⟨"1802", "1802", "", "/user/var/78/10101/0/0/12080", "Aus", "1", "0"⟩

/-- The `TEST_4` value of `tests/test_api.py`: state code 2006 ("Heizen"). -/
def vStr : Value := ⟨"2006", "2000", "", "/user/var/24/10561/0/0/12000", "Heizen", "1", "0"⟩

/-- A unitless value whose code is in neither lookup table but whose
`strValue` is non-empty (such as the 4000-range codes the fallback comment
in `utils.py` mentions). -/
def vFall : Value := ⟨"4001", "0", "", "/user/var/24/10561/0/0/12001", "Sonstig", "1", "0"⟩

/-- The second fub of `tests/test_api.py`'s menu (`name="Part.-Absch."`,
its raw name containing both a `.` and a `-`), given one leaf direct child
and one direct child that itself has a child. -/
def fubPartAbsch : Fub :=
  ⟨"/24/10571", "Part.-Absch.",
    [.mk "/24/10571/0/0/14439" "Eingang" "" none [],
     .mk "/24/10571/0/0/10990" "Eingänge" "" none
       [.mk "/24/10571/0/0/14440" "Wassermangel" "" none []]]⟩

/-- Five selected points with distinct full names, point 3's fetch timing
out (an `EtaApiClientCommunicationError`) and the others succeeding. -/
def fiveResults : List (String × Except FetchError Value) :=
  [("Kessel.p1", .ok vTemp), ("Kessel.p2", .ok vBin), ("Kessel.p3", .error .comm),
   ("Kessel.p4", .ok vStr), ("Kessel.p5", .ok vFall)]

/-! ## Helper lemmas -/

/-- Unfolding: a successful fetch result stores its value into the dict. -/
lemma processResults_cons_ok (n : String) (v : Value)
    (rest : List (String × Except FetchError Value)) (data : List (String × Value)) :
    processResults ((n, .ok v) :: rest) data = processResults rest (dictInsert data n v) := rfl

/-- Unfolding: a communication-error result is skipped. -/
lemma processResults_cons_comm (n : String)
    (rest : List (String × Except FetchError Value)) (data : List (String × Value)) :
    processResults ((n, .error .comm) :: rest) data = processResults rest data := rfl

/-- Unfolding: a generic-api-error result is skipped. -/
lemma processResults_cons_api (n : String)
    (rest : List (String × Except FetchError Value)) (data : List (String × Value)) :
    processResults ((n, .error .api) :: rest) data = processResults rest data := rfl

/-- Unfolding: an authentication-error result fails the whole cycle. -/
lemma processResults_cons_auth (n : String)
    (rest : List (String × Except FetchError Value)) (data : List (String × Value)) :
    processResults ((n, .error .auth) :: rest) data = .error .authFailed := rfl

/-- Inserting a fresh key into the snapshot dict appends it. -/
lemma dictInsert_not_mem (d : List (String × Value)) (k : String) (v : Value)
    (h : k ∉ d.map Prod.fst) : dictInsert d k v = d ++ [(k, v)] := by
  simp [dictInsert, h]

/-- The result loop on a run with no authentication failure appends exactly
the successes, in order, to the dict built so far. -/
lemma processResults_no_auth (rs : List (String × Except FetchError Value))
    (data : List (String × Value))
    (hok : ∀ p ∈ rs, p.2 ≠ Except.error FetchError.auth)
    (hfresh : ∀ p ∈ rs, p.1 ∉ data.map Prod.fst)
    (hnd : (rs.map Prod.fst).Nodup) :
    processResults rs data = .ok (data ++ successEntries rs) := by
  induction rs generalizing data with
  | nil => simp [processResults, successEntries]
  | cons hd tl ih =>
    obtain ⟨n, r⟩ := hd
    rw [List.map_cons, List.nodup_cons] at hnd
    match r with
    | .error .auth =>
      exact absurd rfl (hok (n, .error .auth) (List.mem_cons_self _ _))
    | .error .comm =>
      rw [processResults_cons_comm]
      have : successEntries ((n, Except.error FetchError.comm) :: tl) = successEntries tl := rfl
      rw [this]
      exact ih data (fun p hp => hok p (List.mem_cons_of_mem _ hp))
        (fun p hp => hfresh p (List.mem_cons_of_mem _ hp)) hnd.2
    | .error .api =>
      rw [processResults_cons_api]
      have : successEntries ((n, Except.error FetchError.api) :: tl) = successEntries tl := rfl
      rw [this]
      exact ih data (fun p hp => hok p (List.mem_cons_of_mem _ hp))
        (fun p hp => hfresh p (List.mem_cons_of_mem _ hp)) hnd.2
    | .ok v =>
      rw [processResults_cons_ok,
        dictInsert_not_mem data n v (hfresh (n, .ok v) (List.mem_cons_self _ _))]
      have hstep := ih (data ++ [(n, v)])
        (fun p hp => hok p (List.mem_cons_of_mem _ hp))
        (fun p hp => by
          rw [List.map_append]
          simp only [List.map_cons, List.map_nil, List.mem_append, List.mem_singleton]
          rintro (hmem | hkey)
          · exact hfresh p (List.mem_cons_of_mem _ hp) hmem
          · have hin : p.1 ∈ tl.map Prod.fst := List.mem_map_of_mem Prod.fst hp
            rw [hkey] at hin
            exact hnd.1 hin)
        hnd.2
      rw [hstep]
      have : successEntries ((n, Except.ok v) :: tl) = (n, v) :: successEntries tl := rfl
      rw [this]
      simp

/-- The result loop fails with the re-auth outcome as soon as any result in
the remaining run is an authentication error. -/
lemma processResults_auth (rs : List (String × Except FetchError Value))
    (data : List (String × Value))
    (h : ∃ p ∈ rs, p.2 = Except.error FetchError.auth) :
    processResults rs data = .error .authFailed := by
  induction rs generalizing data with
  | nil => simp at h
  | cons hd tl ih =>
    obtain ⟨n, r⟩ := hd
    obtain ⟨p, hp, hpa⟩ := h
    match r with
    | .error .auth => exact processResults_cons_auth n tl data
    | .error .comm =>
      rw [processResults_cons_comm]
      rcases List.mem_cons.1 hp with hhd | htl
      · rw [hhd] at hpa; exact absurd hpa (by simp)
      · exact ih data ⟨p, htl, hpa⟩
    | .error .api =>
      rw [processResults_cons_api]
      rcases List.mem_cons.1 hp with hhd | htl
      · rw [hhd] at hpa; exact absurd hpa (by simp)
      · exact ih data ⟨p, htl, hpa⟩
    | .ok v =>
      rw [processResults_cons_ok]
      rcases List.mem_cons.1 hp with hhd | htl
      · rw [hhd] at hpa; exact absurd hpa (by simp)
      · exact ih (dictInsert data n v) ⟨p, htl, hpa⟩

/-- Scanning a block of issue events raises the in-flight count by the block
length and records the new high-water mark. -/
lemma inFlightMax_issues (l : List ℕ) (t : List FetchEvent) (cur mx : ℕ) (h : cur ≤ mx) :
    inFlightMax (l.map FetchEvent.issue ++ t) cur mx =
      inFlightMax t (cur + l.length) (max mx (cur + l.length)) := by
  induction l generalizing cur mx with
  | nil => simp [Nat.max_eq_left h]
  | cons a l ih =>
    simp only [List.map_cons, List.cons_append, inFlightMax, List.length_cons, List.append_eq]
    rw [ih (cur + 1) (max mx (cur + 1)) (Nat.le_max_right _ _)]
    congr 1 <;> omega

/-- Scanning completion events never raises the high-water mark. -/
lemma inFlightMax_completes (l : List ℕ) (cur mx : ℕ) :
    inFlightMax (l.map FetchEvent.complete) cur mx = mx := by
  induction l generalizing cur with
  | nil => rfl
  | cons a l ih => simp only [List.map_cons, inFlightMax]; exact ih _

/-! ## Claim theorems -/

/-- C1: the claim — after the naming pass every full_name is a dot-join of
sanitized names only — fails on the code.  At a fub whose raw name contains
`.` and `-` ("Part.-Absch."), `Fub.model_post_init` gives a LEAF direct
child the full_name `"Part.-Absch..Eingang"` built from the RAW fub name
(while setting the same child's namespace to the sanitized "Part Absch"),
not the claimed `"Part Absch.Eingang"`; a direct child that itself has
children is overwritten by `update_namespace` and does get the sanitized
root, as does every deeper node. -/
theorem C1_leaf_child_full_name_keeps_raw_fub_name :
    (fubPartAbsch.model_post_init).objects.map Object.full_name =
      ["Part.-Absch..Eingang", "Part Absch.Eingänge"] ∧
    (fubPartAbsch.model_post_init).objects.map Object.ns =
      [some "Part Absch", some "Part Absch"] ∧
    ((fubPartAbsch.model_post_init).objects.map Object.objects).flatten.map Object.full_name =
      ["Part Absch.Eingänge.Wassermangel"] ∧
    fubPartAbsch.sanitized_name ++ "." ++ sanitize_input "Eingang" = "Part Absch.Eingang" ∧
    "Part.-Absch..Eingang" ≠ "Part Absch.Eingang" := by
  refine ⟨by decide, by decide, by decide, by decide, by decide⟩

/-- C2: classification follows the documented precedence, observably: a unit
in the physical-unit table gives NumericSensor regardless of the coded
value; otherwise a coded value in the enumerated-state table gives
EnumeratedStringSensor (even though the source checks the binary table
first, the tables are disjoint, so the outcome is as documented); otherwise
a coded value in the binary table gives BinarySwitch; and the three
documented concrete cases hold. -/
theorem C2_classification_precedence :
    (∀ v : Value, v.unit ∈ keys ETA_SENSOR_UNITS →
      determine_sensor_type v = some .sensor) ∧
    (∀ v : Value, v.unit ∉ keys ETA_SENSOR_UNITS →
      v.value ∈ keys ETA_STRING_SENSOR_VALUES_DE →
      determine_sensor_type v = some .string_sensor) ∧
    (∀ v : Value, v.unit ∉ keys ETA_SENSOR_UNITS →
      v.value ∉ keys ETA_STRING_SENSOR_VALUES_DE →
      v.value ∈ keys ETA_BINARY_SENSOR_VALUES_DE →
      determine_sensor_type v = some .binary_sensor) ∧
    (∀ v : Value, v.unit = "°C" → determine_sensor_type v = some .sensor) ∧
    (∀ v : Value, v.unit = "" → v.value = "1802" →
      determine_sensor_type v = some .binary_sensor) ∧
    (∀ v : Value, v.unit = "" → v.value = "2006" →
      determine_sensor_type v = some .string_sensor) := by
  refine ⟨?_, ?_, ?_, ?_, ?_, ?_⟩
  · intro v hu
    simp only [determine_sensor_type]
    rw [if_pos hu]
  · intro v hu hs
    have hnb : v.value ∉ keys ETA_BINARY_SENSOR_VALUES_DE := by
      have hcases := hs
      simp only [keys, ETA_STRING_SENSOR_VALUES_DE, List.map_cons, List.map_nil,
        List.mem_cons, List.not_mem_nil, or_false] at hcases
      rcases hcases with h | h | h | h | h | h | h | h | h | h | h | h | h | h | h <;>
        (rw [h]; decide)
    simp only [determine_sensor_type]
    rw [if_neg hu, if_neg hnb, if_pos hs]
  · intro v hu _ hb
    simp only [determine_sensor_type]
    rw [if_neg hu, if_pos hb]
  · intro v hu
    simp only [determine_sensor_type]
    rw [if_pos (show v.unit ∈ keys ETA_SENSOR_UNITS by rw [hu]; decide)]
  · intro v hu hv
    simp only [determine_sensor_type]
    rw [if_neg (show v.unit ∉ keys ETA_SENSOR_UNITS by rw [hu]; decide),
      if_pos (show v.value ∈ keys ETA_BINARY_SENSOR_VALUES_DE by rw [hv]; decide)]
  · intro v hu hv
    simp only [determine_sensor_type]
    rw [if_neg (show v.unit ∉ keys ETA_SENSOR_UNITS by rw [hu]; decide),
      if_neg (show v.value ∉ keys ETA_BINARY_SENSOR_VALUES_DE by rw [hv]; decide),
      if_pos (show v.value ∈ keys ETA_STRING_SENSOR_VALUES_DE by rw [hv]; decide)]

/-- C2 witness: the three documented cases at the repository's own test
values. -/
theorem C2_classification_precedence_witness :
    determine_sensor_type vTemp = some .sensor ∧
    determine_sensor_type vBin = some .binary_sensor ∧
    determine_sensor_type vStr = some .string_sensor :=
  ⟨C2_classification_precedence.2.2.2.1 vTemp (by decide),
   C2_classification_precedence.2.2.2.2.1 vBin (by decide) (by decide),
   C2_classification_precedence.2.2.2.2.2 vStr (by decide) (by decide)⟩

/-- C3 counterexample: a value matching none of the three tables is NOT
returned as Unclassifiable — the fallback in `determine_sensor_type`
classifies a unitless value with non-empty `strValue` as a string sensor. -/
theorem C3_counterexample_fallback_not_none :
    vFall.unit ∉ keys ETA_SENSOR_UNITS ∧
    vFall.value ∉ keys ETA_STRING_SENSOR_VALUES_DE ∧
    vFall.value ∉ keys ETA_BINARY_SENSOR_VALUES_DE ∧
    determine_sensor_type vFall ≠ none := by
  refine ⟨by decide, by decide, by decide, by decide⟩

/-- C3 amended: for a value matching none of the three tables the classifier
returns Unclassifiable (`none`) exactly when the fallback does not apply:
when the unit is the empty string and `strValue` is non-empty it returns the
string-sensor kind instead. -/
theorem C3_unmatched_value_classification (v : Value)
    (hu : v.unit ∉ keys ETA_SENSOR_UNITS)
    (hs : v.value ∉ keys ETA_STRING_SENSOR_VALUES_DE)
    (hb : v.value ∉ keys ETA_BINARY_SENSOR_VALUES_DE) :
    determine_sensor_type v =
      if v.unit = "" ∧ v.str_value ≠ "" then some .string_sensor else none := by
  simp only [determine_sensor_type]
  rw [if_neg hu, if_neg hb, if_neg hs]

/-- C3 amended witness: the fallback value classifies as a string sensor. -/
theorem C3_unmatched_value_classification_witness :
    determine_sensor_type vFall = some EtaSensorType.string_sensor := by
  have h := C3_unmatched_value_classification vFall (by decide) (by decide) (by decide)
  rw [h, if_pos (by decide : vFall.unit = "" ∧ vFall.str_value ≠ "")]

/-- C4: when every point's fetch result is either a success or a
communication error (no authentication failures), the refresh cycle does not
fail and the snapshot contains exactly one entry per successfully fetched
point, in order, with the failed points absent (full names of the selected
points assumed distinct, as the snapshot is keyed by full name). -/
theorem C4_partial_failure_isolation
    (results : List (String × Except FetchError Value))
    (hcomm : ∀ p ∈ results, p.2 ≠ Except.error FetchError.auth ∧
      p.2 ≠ Except.error FetchError.api)
    (hnd : (results.map Prod.fst).Nodup) :
    updateData results = .ok (successEntries results) := by
  have h := processResults_no_auth results []
    (fun p hp => (hcomm p hp).1) (fun p hp => by simp) hnd
  simpa [updateData] using h

/-- C4 witness: five points, point 3 timing out, yield exactly the four
entries for points 1, 2, 4, 5 and no raised cycle failure. -/
theorem C4_partial_failure_isolation_witness :
    updateData fiveResults = .ok
      [("Kessel.p1", vTemp), ("Kessel.p2", vBin), ("Kessel.p4", vStr), ("Kessel.p5", vFall)] := by
  have h := C4_partial_failure_isolation fiveResults (by decide) (by decide)
  rw [h]
  rfl

/-- C5: if any point's fetch result is an authentication error, the whole
cycle fails with the re-authentication-required outcome
(`ConfigEntryAuthFailed`); no partial snapshot is produced, however many
other points succeeded. -/
theorem C5_auth_escalation (results : List (String × Except FetchError Value))
    (h : ∃ p ∈ results, p.2 = Except.error FetchError.auth) :
    updateData results = .error .authFailed :=
  processResults_auth results [] h

/-- C5 witness: an authentication failure among otherwise successful fetches
fails the cycle. -/
theorem C5_auth_escalation_witness :
    updateData [("Kessel.p1", .ok vTemp), ("Kessel.p2", .error .auth),
      ("Kessel.p3", .ok vStr)] = .error .authFailed :=
  C5_auth_escalation _ ⟨("Kessel.p2", .error .auth), by decide, rfl⟩

/-- C6 counterexample: the coordinator's fan-out is a bare `asyncio.gather`
with no semaphore, so already with 4 selected points more than 3 fetch
requests are simultaneously in flight. -/
theorem C6_counterexample_four_points_in_flight :
    ¬ maxInFlight (coordinatorFanout 4) ≤ 3 := by decide

/-- C6 amended: the Refresh Coordinator's per-point fetches are NOT bounded
by 3 — with `n` selected points all `n` requests are simultaneously in
flight at the peak of the cycle (the `asyncio.Semaphore(3)` bound exists
only in the config flow's `_classify_entities` helper, not in
`coordinator.py`). -/
theorem C6_coordinator_fanout_unbounded (n : ℕ) :
    maxInFlight (coordinatorFanout n) = n := by
  unfold maxInFlight coordinatorFanout
  rw [inFlightMax_issues (List.range n) _ 0 0 le_rfl, inFlightMax_completes]
  simp

/-- C7: the capability check returns `True` for a 200 response with version
"1.2", `False` for a 200 response with another version, and raises the
generic `EtaApiClientError` for a 200 response without an `<api>` element —
but it does NOT return `False` for every non-200 status: only non-200
statuses below 400 return `False`; a status ≥ 400 (e.g. 404) makes
`_api_wrapper` raise (`EtaApiClientCommunicationError`, or the
authentication error for 401/403) before the status check is reached, which
contradicts the claim (and the repository's own
`test_does_endpoint_exist` expectation of `False` for 404, which only
passes there because the test monkeypatches `_api_wrapper` away). -/
theorem C7_capability_check_divergence_at_404 :
    does_endpoint_exist ⟨200, { version := "1.0", api := some ⟨"1.2", "/user/api"⟩ }⟩ =
      .ok true ∧
    does_endpoint_exist ⟨200, { version := "1.0", api := some ⟨"1.0", "/user/api"⟩ }⟩ =
      .ok false ∧
    does_endpoint_exist ⟨200, { version := "1.0" }⟩ = .error .generic ∧
    does_endpoint_exist ⟨204, { version := "1.0" }⟩ = .ok false ∧
    does_endpoint_exist ⟨404, { version := "1.0" }⟩ = .error .communication ∧
    (Except.error ApiClientError.communication : Except ApiClientError Bool) ≠ .ok false := by
  refine ⟨rfl, rfl, rfl, rfl, rfl, by decide⟩

/-- C8: for every state-change response, decoding one that contains a
success element yields `Success` carrying that element's uri, and decoding
one that contains an error element (and no success element — the envelope
populates at most one) yields the failure variant carrying that element's
uri and message (write path modelled from the spec: `Success` and
`async_update_state` are referenced by `switch.py` and `tests/test_api.py`
but absent from `src/.../api.py`). -/
theorem C8_write_ack_roundtrip :
    (∀ (resp : WriteResponse) (s : Success), resp.success = some s →
      async_update_state resp = .ok (.inl s)) ∧
    (∀ (resp : WriteResponse) (e : Error), resp.success = none →
      resp.error = some e → async_update_state resp = .ok (.inr e)) := by
  refine ⟨?_, ?_⟩
  · intro resp s h
    simp [async_update_state, h]
  · intro resp e hs he
    simp [async_update_state, hs, he]

/-- C8 witness: the claim's concrete round trip — `<success uri="X"/>`
yields `Success{uri="X"}` and `<error uri="X">msg</error>` yields the
failure with uri "X" and message "msg". -/
theorem C8_write_ack_roundtrip_witness :
    async_update_state { success := some ⟨"X"⟩ } =
      .ok (.inl ⟨"X"⟩) ∧
    async_update_state { error := some ⟨"X", "msg"⟩ } =
      .ok (.inr ⟨"X", "msg"⟩) :=
  ⟨C8_write_ack_roundtrip.1 _ ⟨"X"⟩ rfl,
   C8_write_ack_roundtrip.2 _ ⟨"X", "msg"⟩ rfl rfl⟩

/-- C9: for a fetched value with a non-empty unit whose raw numeric text and
scale factor denote numbers `a` and `b ≠ 0`, the scaled value is exactly
`a / b`. -/
theorem C9_scaling (v : Value) (a b : ℕ) (hu : v.unit ≠ "")
    (ha : pyNat v.value = some a) (hb : pyNat v.scale_factor = some b)
    (hb0 : b ≠ 0) :
    v.scaled_value = some ((a : ℚ) / b) := by
  simp [Value.scaled_value, pyFloat, ha, hb, hu, hb0]

/-- C9 witness: raw text "403" with scale factor "10" and unit "°C" scales
to 40.3. -/
theorem C9_scaling_witness : vTemp.scaled_value = some (40.3 : ℚ) := by
  have h := C9_scaling vTemp 403 10 (by decide) (by decide) (by decide) (by decide)
  rw [h]
  norm_num

/-- C10: decode of a `<value>` element is strict about the unit attribute —
a successfully decoded value's unit always lies in the closed `Literal` set
(the 15 physical units of `ETA_SENSOR_UNITS` plus the empty string), and a
unit outside that set fails the decode, so a firmware update introducing a
new unit breaks that value's decode rather than degrading to a fallback. -/
theorem C10_strict_unit_validation :
    (∀ value adv unit uri sv sf dp v,
      decodeValue value adv unit uri sv sf dp = some v → v.unit ∈ allowedUnits) ∧
    (∀ value adv unit uri sv sf dp, unit ∉ allowedUnits →
      decodeValue value adv unit uri sv sf dp = none) ∧
    (∀ u, u ∈ allowedUnits ↔ (u ∈ keys ETA_SENSOR_UNITS ∨ u = "")) := by
  refine ⟨?_, ?_, ?_⟩
  · intro value adv unit uri sv sf dp v h
    by_cases hm : unit ∈ allowedUnits
    · rw [decodeValue, if_pos hm] at h
      cases h
      exact hm
    · rw [decodeValue, if_neg hm] at h
      cases h
  · intro value adv unit uri sv sf dp h
    rw [decodeValue, if_neg h]
  · have heq : allowedUnits = keys ETA_SENSOR_UNITS ++ [""] := by decide
    intro u
    rw [heq]
    simp

/-- C10 witness: an unknown unit string fails decode. -/
theorem C10_strict_unit_validation_witness :
    decodeValue "403" "0" "XYZ" "/user/var/1" "40" "10" "0" = none :=
  C10_strict_unit_validation.2.1 "403" "0" "XYZ" "/user/var/1" "40" "10" "0" (by decide)

end EtaHeating
